import Mathlib

/-!
Verification of the DGL tutorial-notebook repository.

The repository consists of three Jupyter notebooks:
  * `notebooks/graphbolt/walkthrough.ipynb` (source file `src/unnamed/part_000`),
  * `notebooks/stochastic_training/link_prediction.ipynb`,
  * `notebooks/stochastic_training/node_classification.ipynb`
    (packaged together with the link-prediction notebook in the given source tree).

The notebooks contain no library code of their own: they sequence calls into
`dgl.graphbolt` and `torch`.  We embed the notebooks shallowly in two layers:

1. a small Python abstract-syntax embedding (`PyExpr`, `PyStmt`) in which every
   code cell of every notebook is transcribed statement by statement, used for
   the structural claims (error handling, pipeline stage order, mutation
   freedom, dataloader and sampler arguments, notebook format);

2. direct functional embeddings of the few executable fragments whose
   behaviour the claims describe: the `try`/`except ImportError` guard cells,
   the `to_binary_link_dgl_computing_pack` helper, and the `forward` methods
   of the `SAGE` and `Model` classes.

Transcription conventions for the AST layer: numeric and tensor literals are
carried as their source text in `PyExpr.lit`; Python string literals are
`PyExpr.str`; f-strings are carried as `PyExpr.strfmt` with the interpolated
names rendered in angle brackets (Lean string literals cannot contain braces);
`True`, `False`, `None` and `...` are carried as `PyExpr.lit`; parameter type
annotations and comments are dropped; multi-argument calls use an
`argsCons`-encoded argument list; keyword arguments use `PyExpr.kw`.
-/

/-- Python expressions, as used in the notebooks.  Argument lists of calls,
tuples, list literals and dict literals are encoded with the `argsNil` /
`argsCons` constructors so that all recursion stays structural. -/
inductive PyExpr where
  | name (s : String)
  | attr (e : PyExpr) (field : String)
  | call (f : PyExpr) (callArgs : PyExpr)
  | argsNil
  | argsCons (hd tl : PyExpr)
  | index (e i : PyExpr)
  | lit (s : String)
  | str (s : String)
  | strfmt (s : String)
  | kw (k : String) (v : PyExpr)
  | tup (items : PyExpr)
  | listlit (items : PyExpr)
  | dictlit (items : PyExpr)
  | binop (op : String) (a b : PyExpr)
  | unop (op : String) (a : PyExpr)
  | ternary (c t e : PyExpr)
  deriving DecidableEq

/-- Python statements, as used in the notebooks. -/
inductive PyStmt where
  | imprt (mod asName : String)
  | fromImprt (mod nm : String)
  | assign (lhs rhs : PyExpr)
  | augAssign (lhs : PyExpr) (op : String) (rhs : PyExpr)
  | exprStmt (e : PyExpr)
  | tryExcept (body : PyStmt) (excClass excName : String) (handler : PyStmt)
  | forLoop (target iterExpr : PyExpr) (body : PyStmt)
  | ifStmt (c : PyExpr) (thn els : PyStmt)
  | withStmt (ctx target : PyExpr) (body : PyStmt)
  | funcDef (nm : String) (params : PyExpr) (body : PyStmt)
  | classDef (nm : String) (bases : PyExpr) (body : PyStmt)
  | ret (e : PyExpr)
  | raiseStmt (e : PyExpr)
  | breakStmt
  | shell (cmd : String)
  | seq (a b : PyStmt)
  | skip
  deriving DecidableEq

/-- Build an `argsCons` chain from a Lean list of expressions. -/
def PyExpr.args : List PyExpr → PyExpr
  | [] => .argsNil
  | e :: es => .argsCons e (PyExpr.args es)

/-- Variable reference. -/
def pv (s : String) : PyExpr := .name s

/-- Attribute access `e.field`. -/
def pA (e : PyExpr) (field : String) : PyExpr := .attr e field

/-- Subscript `e[i]`. -/
def pI (e i : PyExpr) : PyExpr := .index e i

/-- Keyword argument `k=v`. -/
def pK (k : String) (v : PyExpr) : PyExpr := .kw k v

/-- Tuple display. -/
def pT (xs : List PyExpr) : PyExpr := .tup (PyExpr.args xs)

/-- List display. -/
def pList (xs : List PyExpr) : PyExpr := .listlit (PyExpr.args xs)

/-- Dict display with keys and values interleaved. -/
def pD (xs : List PyExpr) : PyExpr := .dictlit (PyExpr.args xs)

/-- Method call `obj.m(xs...)`. -/
def mc (obj : PyExpr) (m : String) (xs : List PyExpr) : PyExpr :=
  .call (.attr obj m) (PyExpr.args xs)

/-- Function call `f(xs...)` with a plain name head. -/
def fc (f : String) (xs : List PyExpr) : PyExpr :=
  .call (.name f) (PyExpr.args xs)

/-- Call with an arbitrary head expression. -/
def cc (f : PyExpr) (xs : List PyExpr) : PyExpr :=
  .call f (PyExpr.args xs)

/-- Sequence a list of statements. -/
def blk : List PyStmt → PyStmt
  | [] => .skip
  | s :: ss => .seq s (blk ss)

/-- All subterms of an expression (the expression itself included), in
left-to-right traversal order. -/
def PyExpr.subterms : PyExpr → List PyExpr
  | .name s => [.name s]
  | .attr a f => .attr a f :: a.subterms
  | .call f xs => .call f xs :: (f.subterms ++ xs.subterms)
  | .argsNil => [.argsNil]
  | .argsCons h t => .argsCons h t :: (h.subterms ++ t.subterms)
  | .index a i => .index a i :: (a.subterms ++ i.subterms)
  | .lit s => [.lit s]
  | .str s => [.str s]
  | .strfmt s => [.strfmt s]
  | .kw k v => .kw k v :: v.subterms
  | .tup xs => .tup xs :: xs.subterms
  | .listlit xs => .listlit xs :: xs.subterms
  | .dictlit xs => .dictlit xs :: xs.subterms
  | .binop o a b => .binop o a b :: (a.subterms ++ b.subterms)
  | .unop o a => .unop o a :: a.subterms
  | .ternary c t e => .ternary c t e :: (c.subterms ++ t.subterms ++ e.subterms)

/-- All statement nodes of a statement (itself included), program order,
descending into every construct including function and class bodies. -/
def PyStmt.stmts : PyStmt → List PyStmt
  | .tryExcept b c n h => .tryExcept b c n h :: (b.stmts ++ h.stmts)
  | .forLoop t i b => .forLoop t i b :: b.stmts
  | .ifStmt c t e => .ifStmt c t e :: (t.stmts ++ e.stmts)
  | .withStmt c t b => .withStmt c t b :: b.stmts
  | .funcDef n p b => .funcDef n p b :: b.stmts
  | .classDef n bs b => .classDef n bs b :: b.stmts
  | .seq a b => a.stmts ++ b.stmts
  | s => [s]

/-- Statement nodes reachable without entering `funcDef` / `classDef` bodies. -/
def PyStmt.stmtsShallow : PyStmt → List PyStmt
  | .tryExcept b c n h => .tryExcept b c n h :: (b.stmtsShallow ++ h.stmtsShallow)
  | .forLoop t i b => .forLoop t i b :: b.stmtsShallow
  | .ifStmt c t e => .ifStmt c t e :: (t.stmtsShallow ++ e.stmtsShallow)
  | .withStmt c t b => .withStmt c t b :: b.stmtsShallow
  | .seq a b => a.stmtsShallow ++ b.stmtsShallow
  | s => [s]

/-- The expressions directly owned by one statement node. -/
def stmtOwnExprs : PyStmt → List PyExpr
  | .assign l r => [l, r]
  | .augAssign l _ r => [l, r]
  | .exprStmt e => [e]
  | .forLoop t i _ => [t, i]
  | .withStmt c t _ => [c, t]
  | .ifStmt c _ _ => [c]
  | .funcDef _ p _ => [p]
  | .classDef _ bs _ => [bs]
  | .ret e => [e]
  | .raiseStmt e => [e]
  | _ => []

/-- Every expression subterm occurring anywhere in a statement. -/
def PyStmt.exprsDeep (s : PyStmt) : List PyExpr :=
  (s.stmts.flatMap stmtOwnExprs).flatMap PyExpr.subterms

/-- Every expression subterm reachable without entering nested definitions. -/
def PyStmt.exprsShallow (s : PyStmt) : List PyExpr :=
  (s.stmtsShallow.flatMap stmtOwnExprs).flatMap PyExpr.subterms

/-- The root name of an attribute / subscript / call-head chain:
for example the root of `data.labels.cpu().numpy()` is `data`. -/
def rootName : PyExpr → Option String
  | .name s => some s
  | .attr e _ => rootName e
  | .index e _ => rootName e
  | .call f _ => rootName f
  | _ => none

/-!
Transcription of the walkthrough notebook (`notebooks/graphbolt/walkthrough.ipynb`,
source file `src/unnamed/part_000`).  `wCellN` is the N-th code cell.
-/

/-- Walkthrough code cell 1: environment setup and the try/except ImportError
guard around `dgl.graphbolt`. -/
def wCell1 : PyStmt := blk [
  .imprt "os" "os",
  .imprt "torch" "torch",
  .assign (pI (pA (pv "os") "environ") (.str "TORCH")) (pA (pv "torch") "__version__"),
  .assign (pI (pA (pv "os") "environ") (.str "DGLBACKEND")) (.str "pytorch"),
  .tryExcept
    (blk [.imprt "dgl.graphbolt" "gb", .assign (pv "installed") (.lit "True")])
    "ImportError" "error"
    (blk [.assign (pv "installed") (.lit "False"),
          .exprStmt (fc "print" [pv "error"])]),
  .exprStmt (fc "print"
    [.ternary (pv "installed") (.str "DGL installed!") (.str "DGL not found!")])]

/-- Walkthrough code cell 2: build the `ItemSet` of node pairs. -/
def wCell2 : PyStmt := blk [
  .assign (pv "node_pairs") (mc (pv "torch") "tensor"
    [.lit "[[7,0],[6,0],[1,3],[3,3],[2,4],[8,4],[1,4],[2,4],[1,5],[9,6],[0,6],[8,6],[7,7],[7,7],[4,7],[6,8],[5,8],[9,9],[4,9],[4,9],[5,9],[9,9],[5,9],[9,9],[7,9]]"]),
  .assign (pv "item_set") (mc (pv "gb") "ItemSet"
    [pv "node_pairs", pK "names" (.str "node_pairs")]),
  .exprStmt (fc "print" [fc "list" [pv "item_set"]])]

/-- Walkthrough code cell 3: build the `FusedCSCSamplingGraph`. -/
def wCell3 : PyStmt := blk [
  .assign (pv "indptr") (mc (pv "torch") "tensor" [.lit "[0,2,2,2,4,8,9,12,15,17,25]"]),
  .assign (pv "indices") (mc (pv "torch") "tensor"
    [.lit "[7,6,1,3,2,8,1,2,1,9,0,8,7,7,4,6,5,9,4,4,5,9,5,9,7]"]),
  .assign (pv "num_edges") (.lit "25"),
  .assign (pv "eid") (mc (pv "torch") "arange" [pv "num_edges"]),
  .assign (pv "edge_attributes") (pD [pA (pv "gb") "ORIGINAL_EDGE_ID", pv "eid"]),
  .assign (pv "graph") (mc (pv "gb") "from_fused_csc"
    [pv "indptr", pv "indices", .lit "None", .lit "None", pv "edge_attributes", .lit "None"]),
  .exprStmt (fc "print" [pv "graph"])]

/-- Walkthrough code cell 4: build the `BasicFeatureStore`. -/
def wCell4 : PyStmt := blk [
  .assign (pv "num_nodes") (.lit "10"),
  .assign (pv "num_edges") (.lit "25"),
  .assign (pv "node_feature_data") (mc (pv "torch") "rand" [pT [pv "num_nodes", .lit "2"]]),
  .assign (pv "edge_feature_data") (mc (pv "torch") "rand" [pT [pv "num_edges", .lit "3"]]),
  .assign (pv "node_feature") (mc (pv "gb") "TorchBasedFeature" [pv "node_feature_data"]),
  .assign (pv "edge_feature") (mc (pv "gb") "TorchBasedFeature" [pv "edge_feature_data"]),
  .assign (pv "features") (pD
    [pT [.str "node", .lit "None", .str "feat"], pv "node_feature",
     pT [.str "edge", .lit "None", .str "feat"], pv "edge_feature"]),
  .assign (pv "feature_store") (mc (pv "gb") "BasicFeatureStore" [pv "features"]),
  .exprStmt (fc "print" [pv "feature_store"])]

/-- Walkthrough code cell 5: `ItemSampler` stage, then peek a minibatch. -/
def wCell5 : PyStmt := blk [
  .assign (pv "datapipe") (mc (pv "gb") "ItemSampler"
    [pv "item_set", pK "batch_size" (.lit "3"), pK "shuffle" (.lit "False")]),
  .exprStmt (fc "print" [fc "next" [fc "iter" [pv "datapipe"]]])]

/-- Walkthrough code cell 6: negative-sampling stage, then peek a minibatch. -/
def wCell6 : PyStmt := blk [
  .assign (pv "datapipe") (mc (pv "datapipe") "sample_uniform_negative" [pv "graph", .lit "1"]),
  .exprStmt (fc "print" [fc "next" [fc "iter" [pv "datapipe"]]])]

/-- Walkthrough code cell 7: neighbor-sampling stage, then peek a minibatch. -/
def wCell7 : PyStmt := blk [
  .assign (pv "fanouts") (mc (pv "torch") "tensor" [.lit "[1]"]),
  .assign (pv "datapipe") (mc (pv "datapipe") "sample_neighbor" [pv "graph", pList [pv "fanouts"]]),
  .exprStmt (fc "print" [fc "next" [fc "iter" [pv "datapipe"]]])]

/-- Walkthrough code cell 8: feature-fetching stage, then peek a minibatch. -/
def wCell8 : PyStmt := blk [
  .assign (pv "datapipe") (mc (pv "datapipe") "fetch_feature"
    [pv "feature_store", pK "node_feature_keys" (pList [.str "feat"]),
     pK "edge_feature_keys" (pList [.str "feat"])]),
  .exprStmt (fc "print" [fc "next" [fc "iter" [pv "datapipe"]]])]

/-- Walkthrough code cell 9: conversion to DGLMiniBatch, then peek a minibatch. -/
def wCell9 : PyStmt := blk [
  .assign (pv "datapipe") (mc (pv "datapipe") "to_dgl" []),
  .exprStmt (fc "print" [fc "next" [fc "iter" [pv "datapipe"]]])]

/-- Walkthrough code cell 10: copy-to-device stage, then peek a minibatch. -/
def wCell10 : PyStmt := blk [
  .assign (pv "datapipe") (mc (pv "datapipe") "copy_to" [pK "device" (.str "cuda")]),
  .exprStmt (fc "print" [fc "next" [fc "iter" [pv "datapipe"]]])]

/-- Walkthrough code cell 11: the node-classification exercise cell; the
datapipe construction is left as a literal ellipsis in the source. -/
def wCell11 : PyStmt := blk [
  .assign (pv "num_nodes") (.lit "10"),
  .assign (pv "nodes") (mc (pv "torch") "arange" [pv "num_nodes"]),
  .assign (pv "labels") (mc (pv "torch") "tensor" [.lit "[1,2,0,2,2,0,2,2,2,2]"]),
  .assign (pv "item_set") (mc (pv "gb") "ItemSet"
    [pT [pv "nodes", pv "labels"], pK "names" (pT [.str "seed_nodes", .str "labels"])]),
  .assign (pv "indptr") (mc (pv "torch") "tensor" [.lit "[0,2,2,2,4,8,9,12,15,17,25]"]),
  .assign (pv "indices") (mc (pv "torch") "tensor"
    [.lit "[7,6,1,3,2,8,1,2,1,9,0,8,7,7,4,6,5,9,4,4,5,9,5,9,7]"]),
  .assign (pv "eid") (mc (pv "torch") "tensor"
    [.lit "[0,1,2,3,4,5,6,7,8,9,10,11,12,13,14,15,16,17,18,19,20,21,22,23,24]"]),
  .assign (pv "edge_attributes") (pD [pA (pv "gb") "ORIGINAL_EDGE_ID", pv "eid"]),
  .assign (pv "graph") (mc (pv "gb") "from_fused_csc"
    [pv "indptr", pv "indices", .lit "None", .lit "None", pv "edge_attributes", .lit "None"]),
  .assign (pv "num_nodes") (.lit "10"),
  .assign (pv "num_edges") (.lit "25"),
  .assign (pv "node_feature_data") (mc (pv "torch") "rand" [pT [pv "num_nodes", .lit "2"]]),
  .assign (pv "edge_feature_data") (mc (pv "torch") "rand" [pT [pv "num_edges", .lit "3"]]),
  .assign (pv "node_feature") (mc (pv "gb") "TorchBasedFeature" [pv "node_feature_data"]),
  .assign (pv "edge_feature") (mc (pv "gb") "TorchBasedFeature" [pv "edge_feature_data"]),
  .assign (pv "features") (pD
    [pT [.str "node", .lit "None", .str "feat"], pv "node_feature",
     pT [.str "edge", .lit "None", .str "feat"], pv "edge_feature"]),
  .assign (pv "feature_store") (mc (pv "gb") "BasicFeatureStore" [pv "features"]),
  .exprStmt (.lit "..."),
  .exprStmt (fc "print" [fc "next" [fc "iter" [pv "datapipe"]]])]

/-- The walkthrough notebook's code cells in order. -/
def walkthroughCode : PyStmt := blk
  [wCell1, wCell2, wCell3, wCell4, wCell5, wCell6, wCell7, wCell8, wCell9, wCell10, wCell11]

/-!
Transcription of `notebooks/stochastic_training/link_prediction.ipynb`.
`lpCellN` is the N-th code cell.
-/

/-- Link-prediction code cell 1: environment setup, pip install, and the
try/except ImportError guard around `dgl` and `dgl.graphbolt`. -/
def lpCell1 : PyStmt := blk [
  .imprt "os" "os",
  .imprt "torch" "torch",
  .imprt "numpy" "np",
  .assign (pI (pA (pv "os") "environ") (.str "TORCH")) (pA (pv "torch") "__version__"),
  .assign (pI (pA (pv "os") "environ") (.str "DGLBACKEND")) (.str "pytorch"),
  .assign (pv "device") (mc (pv "torch") "device" [.str "cpu"]),
  .shell "pip install --pre dgl -f https://data.dgl.ai/wheels-test/repo.html",
  .tryExcept
    (blk [.imprt "dgl" "dgl", .imprt "dgl.graphbolt" "gb",
          .assign (pv "installed") (.lit "True")])
    "ImportError" "error"
    (blk [.assign (pv "installed") (.lit "False"),
          .exprStmt (fc "print" [pv "error"])]),
  .exprStmt (fc "print"
    [.ternary (pv "installed") (.str "DGL installed!") (.str "DGL not found!")])]

/-- Link-prediction code cell 2: load the cora builtin dataset. -/
def lpCell2 : PyStmt := blk [
  .assign (pv "dataset") (mc (mc (pv "gb") "BuiltinDataset" [.str "cora"]) "load" [])]

/-- Link-prediction code cell 3: unpack graph, feature store and the
link-prediction task's train / test item sets. -/
def lpCell3 : PyStmt := blk [
  .assign (pv "graph") (pA (pv "dataset") "graph"),
  .assign (pv "feature") (pA (pv "dataset") "feature"),
  .assign (pv "train_set") (pA (pI (pA (pv "dataset") "tasks") (.lit "1")) "train_set"),
  .assign (pv "test_set") (pA (pI (pA (pv "dataset") "tasks") (.lit "1")) "test_set"),
  .assign (pv "task_name") (pI (pA (pI (pA (pv "dataset") "tasks") (.lit "1")) "metadata") (.str "name")),
  .exprStmt (fc "print" [.strfmt "Task: <task_name>."])]

/-- Link-prediction code cell 4: the training data pipeline and data loader. -/
def lpCell4 : PyStmt := blk [
  .assign (pv "datapipe") (mc (pv "gb") "ItemSampler"
    [pv "train_set", pK "batch_size" (.lit "256"), pK "shuffle" (.lit "True")]),
  .assign (pv "datapipe") (mc (pv "datapipe") "sample_uniform_negative" [pv "graph", .lit "5"]),
  .assign (pv "datapipe") (mc (pv "datapipe") "sample_neighbor"
    [pv "graph", pList [.lit "5", .lit "5", .lit "5"]]),
  .assign (pv "datapipe") (mc (pv "datapipe") "fetch_feature"
    [pv "feature", pK "node_feature_keys" (pList [.str "feat"])]),
  .assign (pv "datapipe") (mc (pv "datapipe") "to_dgl" []),
  .assign (pv "datapipe") (mc (pv "datapipe") "copy_to" [pv "device"]),
  .assign (pv "train_dataloader") (mc (pv "gb") "MultiProcessDataLoader"
    [pv "datapipe", pK "num_workers" (.lit "0")])]

/-- Link-prediction code cell 5: peek one minibatch from the train loader. -/
def lpCell5 : PyStmt := blk [
  .assign (pv "data") (fc "next" [fc "iter" [pv "train_dataloader"]]),
  .exprStmt (fc "print" [.strfmt "DGLMiniBatch: <data>"])]

/-- Link-prediction code cell 6: the `SAGE` model class. -/
def lpCell6 : PyStmt := blk [
  .imprt "dgl.nn" "dglnn",
  .imprt "torch.nn" "nn",
  .imprt "torch.nn.functional" "F",
  .classDef "SAGE" (PyExpr.args [pA (pv "nn") "Module"]) (blk [
    .funcDef "__init__" (PyExpr.args [pv "self", pv "in_size", pv "hidden_size"]) (blk [
      .exprStmt (cc (pA (fc "super" []) "__init__") []),
      .assign (pA (pv "self") "layers") (mc (pv "nn") "ModuleList" []),
      .exprStmt (mc (pA (pv "self") "layers") "append"
        [mc (pv "dglnn") "SAGEConv" [pv "in_size", pv "hidden_size", .str "mean"]]),
      .exprStmt (mc (pA (pv "self") "layers") "append"
        [mc (pv "dglnn") "SAGEConv" [pv "hidden_size", pv "hidden_size", .str "mean"]]),
      .assign (pA (pv "self") "hidden_size") (pv "hidden_size"),
      .assign (pA (pv "self") "predictor") (mc (pv "nn") "Sequential"
        [mc (pv "nn") "Linear" [pv "hidden_size", pv "hidden_size"],
         mc (pv "nn") "ReLU" [],
         mc (pv "nn") "Linear" [pv "hidden_size", .lit "1"]])]),
    .funcDef "forward" (PyExpr.args [pv "self", pv "blocks", pv "x"]) (blk [
      .assign (pv "hidden_x") (pv "x"),
      .forLoop (pT [pv "layer_idx", pT [pv "layer", pv "block"]])
        (fc "enumerate" [fc "zip" [pA (pv "self") "layers", pv "blocks"]])
        (blk [
          .assign (pv "hidden_x") (cc (pv "layer") [pv "block", pv "hidden_x"]),
          .assign (pv "is_last_layer")
            (.binop "==" (pv "layer_idx")
              (.binop "-" (fc "len" [pA (pv "self") "layers"]) (.lit "1"))),
          .ifStmt (.unop "not" (pv "is_last_layer"))
            (.assign (pv "hidden_x") (mc (pv "F") "relu" [pv "hidden_x"]))
            .skip]),
      .ret (pv "hidden_x")])])]

/-- Link-prediction code cell 7: instantiate the model and the optimizer. -/
def lpCell7 : PyStmt := blk [
  .assign (pv "in_size") (pI (mc (pv "feature") "size" [.str "node", .lit "None", .str "feat"]) (.lit "0")),
  .assign (pv "model") (mc (fc "SAGE" [pv "in_size", .lit "128"]) "to" [pv "device"]),
  .assign (pv "optimizer") (cc (pA (pA (pv "torch") "optim") "Adam")
    [mc (pv "model") "parameters" [], pK "lr" (.lit "0.001")])]

/-- Link-prediction code cell 8: the `to_binary_link_dgl_computing_pack`
utility function (the parameter annotation `gb.DGLMiniBatch` is dropped). -/
def lpCell8 : PyStmt := blk [
  .funcDef "to_binary_link_dgl_computing_pack" (PyExpr.args [pv "data"]) (blk [
    .exprStmt (.str "Convert the minibatch to a training pair and a label tensor."),
    .assign (pT [pv "pos_src", pv "pos_dst"]) (pA (pv "data") "positive_node_pairs"),
    .assign (pT [pv "neg_src", pv "neg_dst"]) (pA (pv "data") "negative_node_pairs"),
    .assign (pv "node_pairs") (pT
      [mc (pv "torch") "cat" [pT [pv "pos_src", pv "neg_src"], pK "dim" (.lit "0")],
       mc (pv "torch") "cat" [pT [pv "pos_dst", pv "neg_dst"], pK "dim" (.lit "0")]]),
    .assign (pv "pos_label") (mc (pv "torch") "ones_like" [pv "pos_src"]),
    .assign (pv "neg_label") (mc (pv "torch") "zeros_like" [pv "neg_src"]),
    .assign (pv "labels") (mc (pv "torch") "cat"
      [pList [pv "pos_label", pv "neg_label"], pK "dim" (.lit "0")]),
    .ret (pT [pv "node_pairs", mc (pv "labels") "float" []])])]

/-- Link-prediction code cell 9: the training loop. -/
def lpCell9 : PyStmt := blk [
  .imprt "tqdm" "tqdm",
  .forLoop (pv "epoch") (fc "range" [.lit "3"]) (blk [
    .exprStmt (mc (pv "model") "train" []),
    .assign (pv "total_loss") (.lit "0"),
    .forLoop (pT [pv "step", pv "data"])
      (mc (pv "tqdm") "tqdm" [fc "enumerate" [pv "train_dataloader"]])
      (blk [
        .assign (pT [pv "compacted_pairs", pv "labels"])
          (fc "to_binary_link_dgl_computing_pack" [pv "data"]),
        .assign (pv "node_feature") (pI (pA (pv "data") "node_features") (.str "feat")),
        .assign (pv "blocks") (pA (pv "data") "blocks"),
        .assign (pv "y") (fc "model" [pv "blocks", pv "node_feature"]),
        .assign (pv "logits") (mc
          (cc (pA (pv "model") "predictor")
            [.binop "*" (pI (pv "y") (pI (pv "compacted_pairs") (.lit "0")))
                        (pI (pv "y") (pI (pv "compacted_pairs") (.lit "1")))])
          "squeeze" []),
        .assign (pv "loss") (mc (pv "F") "binary_cross_entropy_with_logits"
          [pv "logits", pv "labels"]),
        .exprStmt (mc (pv "optimizer") "zero_grad" []),
        .exprStmt (mc (pv "loss") "backward" []),
        .exprStmt (mc (pv "optimizer") "step" []),
        .augAssign (pv "total_loss") "+" (mc (pv "loss") "item" [])]),
    .exprStmt (fc "print" [.strfmt "Epoch <epoch:03d> | Loss <total_loss/(step+1):.3f>"])])]

/-- Link-prediction code cell 10: evaluation pipeline, loader and AUROC. -/
def lpCell10 : PyStmt := blk [
  .exprStmt (mc (pv "model") "eval" []),
  .assign (pv "datapipe") (mc (pv "gb") "ItemSampler"
    [pv "test_set", pK "batch_size" (.lit "256"), pK "shuffle" (.lit "False")]),
  .assign (pv "datapipe") (mc (pv "datapipe") "sample_neighbor"
    [pv "graph", pList [.lit "-1", .lit "-1"]]),
  .assign (pv "datapipe") (mc (pv "datapipe") "fetch_feature"
    [pv "feature", pK "node_feature_keys" (pList [.str "feat"])]),
  .assign (pv "datapipe") (mc (pv "datapipe") "to_dgl" []),
  .assign (pv "datapipe") (mc (pv "datapipe") "copy_to" [pv "device"]),
  .assign (pv "eval_dataloader") (mc (pv "gb") "MultiProcessDataLoader"
    [pv "datapipe", pK "num_workers" (.lit "0")]),
  .assign (pv "logits") (pList []),
  .assign (pv "labels") (pList []),
  .forLoop (pT [pv "step", pv "data"]) (fc "enumerate" [pv "eval_dataloader"]) (blk [
    .assign (pT [pv "compacted_pairs", pv "label"])
      (fc "to_binary_link_dgl_computing_pack" [pv "data"]),
    .assign (pv "x") (pI (pA (pv "data") "node_features") (.str "feat")),
    .assign (pv "y") (fc "model" [pA (pv "data") "blocks", pv "x"]),
    .assign (pv "logit") (mc (mc
      (cc (pA (pv "model") "predictor")
        [.binop "*" (pI (pv "y") (pI (pv "compacted_pairs") (.lit "0")))
                    (pI (pv "y") (pI (pv "compacted_pairs") (.lit "1")))])
      "squeeze" []) "detach" []),
    .exprStmt (mc (pv "logits") "append" [pv "logit"]),
    .exprStmt (mc (pv "labels") "append" [pv "label"])]),
  .assign (pv "logits") (mc (pv "torch") "cat" [pv "logits", pK "dim" (.lit "0")]),
  .assign (pv "labels") (mc (pv "torch") "cat" [pv "labels", pK "dim" (.lit "0")]),
  .fromImprt "sklearn.metrics" "roc_auc_score",
  .assign (pv "auc") (fc "roc_auc_score" [pv "labels", pv "logits"]),
  .exprStmt (fc "print" [.str "Link Prediction AUC:", pv "auc"])]

/-- The link-prediction notebook's code cells in order. -/
def linkPredictionCode : PyStmt := blk
  [lpCell1, lpCell2, lpCell3, lpCell4, lpCell5, lpCell6, lpCell7, lpCell8, lpCell9, lpCell10]

/-!
Transcription of `notebooks/stochastic_training/node_classification.ipynb`.
`ncCellN` is the N-th code cell.
-/

/-- Node-classification code cell 1: environment setup, pip install, and the
try/except ImportError guard around `dgl` and `dgl.graphbolt`. -/
def ncCell1 : PyStmt := blk [
  .imprt "os" "os",
  .imprt "torch" "torch",
  .imprt "numpy" "np",
  .assign (pI (pA (pv "os") "environ") (.str "TORCH")) (pA (pv "torch") "__version__"),
  .assign (pI (pA (pv "os") "environ") (.str "DGLBACKEND")) (.str "pytorch"),
  .assign (pv "device") (mc (pv "torch") "device" [.str "cpu"]),
  .shell "pip install --pre dgl -f https://data.dgl.ai/wheels-test/repo.html",
  .tryExcept
    (blk [.imprt "dgl" "dgl", .imprt "dgl.graphbolt" "gb",
          .assign (pv "installed") (.lit "True")])
    "ImportError" "error"
    (blk [.assign (pv "installed") (.lit "False"),
          .exprStmt (fc "print" [pv "error"])]),
  .exprStmt (fc "print"
    [.ternary (pv "installed") (.str "DGL installed!") (.str "DGL not found!")])]

/-- Node-classification code cell 2: load the ogbn-arxiv builtin dataset. -/
def ncCell2 : PyStmt := blk [
  .assign (pv "dataset") (mc (mc (pv "gb") "BuiltinDataset" [.str "ogbn-arxiv"]) "load" [])]

/-- Node-classification code cell 3: unpack graph, feature store and the
node-classification task's train / validation / test item sets. -/
def ncCell3 : PyStmt := blk [
  .assign (pv "graph") (pA (pv "dataset") "graph"),
  .assign (pv "feature") (pA (pv "dataset") "feature"),
  .assign (pv "train_set") (pA (pI (pA (pv "dataset") "tasks") (.lit "0")) "train_set"),
  .assign (pv "valid_set") (pA (pI (pA (pv "dataset") "tasks") (.lit "0")) "validation_set"),
  .assign (pv "test_set") (pA (pI (pA (pv "dataset") "tasks") (.lit "0")) "test_set"),
  .assign (pv "task_name") (pI (pA (pI (pA (pv "dataset") "tasks") (.lit "0")) "metadata") (.str "name")),
  .assign (pv "num_classes") (pI (pA (pI (pA (pv "dataset") "tasks") (.lit "0")) "metadata") (.str "num_classes")),
  .exprStmt (fc "print" [.strfmt "Task: <task_name>. Number of classes: <num_classes>"])]

/-- Node-classification code cell 4: the training data pipeline and loader. -/
def ncCell4 : PyStmt := blk [
  .assign (pv "datapipe") (mc (pv "gb") "ItemSampler"
    [pv "train_set", pK "batch_size" (.lit "1024"), pK "shuffle" (.lit "True")]),
  .assign (pv "datapipe") (mc (pv "datapipe") "sample_neighbor"
    [pv "graph", pList [.lit "4", .lit "4"]]),
  .assign (pv "datapipe") (mc (pv "datapipe") "fetch_feature"
    [pv "feature", pK "node_feature_keys" (pList [.str "feat"])]),
  .assign (pv "datapipe") (mc (pv "datapipe") "to_dgl" []),
  .assign (pv "datapipe") (mc (pv "datapipe") "copy_to" [pv "device"]),
  .assign (pv "train_dataloader") (mc (pv "gb") "MultiProcessDataLoader"
    [pv "datapipe", pK "num_workers" (.lit "0")])]

/-- Node-classification code cell 5: peek one minibatch from the train loader. -/
def ncCell5 : PyStmt := blk [
  .assign (pv "data") (fc "next" [fc "iter" [pv "train_dataloader"]]),
  .exprStmt (fc "print" [pv "data"])]

/-- Node-classification code cell 6: read the input node IDs off the MFGs. -/
def ncCell6 : PyStmt := blk [
  .assign (pv "mfgs") (pA (pv "data") "blocks"),
  .assign (pv "input_nodes") (pI (pA (pI (pv "mfgs") (.lit "0")) "srcdata") (pA (pv "dgl") "NID")),
  .exprStmt (fc "print" [.strfmt "Input nodes: <input_nodes>."])]

/-- Node-classification code cell 7: the `Model` class and its instantiation. -/
def ncCell7 : PyStmt := blk [
  .imprt "torch.nn" "nn",
  .imprt "torch.nn.functional" "F",
  .fromImprt "dgl.nn" "SAGEConv",
  .classDef "Model" (PyExpr.args [pA (pv "nn") "Module"]) (blk [
    .funcDef "__init__" (PyExpr.args [pv "self", pv "in_feats", pv "h_feats", pv "num_classes"]) (blk [
      .exprStmt (cc (pA (fc "super" [pv "Model", pv "self"]) "__init__") []),
      .assign (pA (pv "self") "conv1") (fc "SAGEConv"
        [pv "in_feats", pv "h_feats", pK "aggregator_type" (.str "mean")]),
      .assign (pA (pv "self") "conv2") (fc "SAGEConv"
        [pv "h_feats", pv "num_classes", pK "aggregator_type" (.str "mean")]),
      .assign (pA (pv "self") "h_feats") (pv "h_feats")]),
    .funcDef "forward" (PyExpr.args [pv "self", pv "mfgs", pv "x"]) (blk [
      .assign (pv "h") (cc (pA (pv "self") "conv1") [pI (pv "mfgs") (.lit "0"), pv "x"]),
      .assign (pv "h") (mc (pv "F") "relu" [pv "h"]),
      .assign (pv "h") (cc (pA (pv "self") "conv2") [pI (pv "mfgs") (.lit "1"), pv "h"]),
      .ret (pv "h")])]),
  .assign (pv "in_size") (pI (mc (pv "feature") "size" [.str "node", .lit "None", .str "feat"]) (.lit "0")),
  .assign (pv "model") (mc (fc "Model" [pv "in_size", .lit "64", pv "num_classes"]) "to" [pv "device"])]

/-- Node-classification code cell 8: the optimizer. -/
def ncCell8 : PyStmt := blk [
  .assign (pv "opt") (cc (pA (pA (pv "torch") "optim") "Adam") [mc (pv "model") "parameters" []])]

/-- Node-classification code cell 9: the validation pipeline and loader. -/
def ncCell9 : PyStmt := blk [
  .assign (pv "datapipe") (mc (pv "gb") "ItemSampler"
    [pv "valid_set", pK "batch_size" (.lit "1024"), pK "shuffle" (.lit "False")]),
  .assign (pv "datapipe") (mc (pv "datapipe") "sample_neighbor"
    [pv "graph", pList [.lit "4", .lit "4"]]),
  .assign (pv "datapipe") (mc (pv "datapipe") "fetch_feature"
    [pv "feature", pK "node_feature_keys" (pList [.str "feat"])]),
  .assign (pv "datapipe") (mc (pv "datapipe") "to_dgl" []),
  .assign (pv "datapipe") (mc (pv "datapipe") "copy_to" [pv "device"]),
  .assign (pv "valid_dataloader") (mc (pv "gb") "MultiProcessDataLoader"
    [pv "datapipe", pK "num_workers" (.lit "0")]),
  .imprt "sklearn.metrics" "sklearn"]

/-- Node-classification code cell 10: the training loop with per-epoch
validation and an early break. -/
def ncCell10 : PyStmt := blk [
  .imprt "tqdm" "tqdm",
  .forLoop (pv "epoch") (fc "range" [.lit "10"]) (blk [
    .exprStmt (mc (pv "model") "train" []),
    .withStmt (mc (pv "tqdm") "tqdm" [pv "train_dataloader"]) (pv "tq") (blk [
      .forLoop (pT [pv "step", pv "data"]) (fc "enumerate" [pv "tq"]) (blk [
        .assign (pv "x") (pI (pA (pv "data") "node_features") (.str "feat")),
        .assign (pv "labels") (pA (pv "data") "labels"),
        .assign (pv "predictions") (fc "model" [pA (pv "data") "blocks", pv "x"]),
        .assign (pv "loss") (mc (pv "F") "cross_entropy" [pv "predictions", pv "labels"]),
        .exprStmt (mc (pv "opt") "zero_grad" []),
        .exprStmt (mc (pv "loss") "backward" []),
        .exprStmt (mc (pv "opt") "step" []),
        .assign (pv "accuracy") (cc (pA (pA (pv "sklearn") "metrics") "accuracy_score")
          [mc (mc (pv "labels") "cpu" []) "numpy" [],
           mc (mc (mc (mc (pv "predictions") "argmax" [.lit "1"]) "detach" []) "cpu" []) "numpy" []]),
        .exprStmt (mc (pv "tq") "set_postfix"
          [pD [.str "loss", .binop "%" (.str "%.03f") (mc (pv "loss") "item" []),
               .str "acc", .binop "%" (.str "%.03f") (pv "accuracy")],
           pK "refresh" (.lit "False")])])]),
    .exprStmt (mc (pv "model") "eval" []),
    .assign (pv "predictions") (pList []),
    .assign (pv "labels") (pList []),
    .withStmt (mc (pv "tqdm") "tqdm" [pv "valid_dataloader"]) (pv "tq")
      (.withStmt (mc (pv "torch") "no_grad" []) (.lit "None") (blk [
        .forLoop (pv "data") (pv "tq") (blk [
          .assign (pv "x") (pI (pA (pv "data") "node_features") (.str "feat")),
          .exprStmt (mc (pv "labels") "append"
            [mc (mc (pA (pv "data") "labels") "cpu" []) "numpy" []]),
          .exprStmt (mc (pv "predictions") "append"
            [mc (mc (mc (fc "model" [pA (pv "data") "blocks", pv "x"]) "argmax" [.lit "1"]) "cpu" []) "numpy" []])]),
        .assign (pv "predictions") (mc (pv "np") "concatenate" [pv "predictions"]),
        .assign (pv "labels") (mc (pv "np") "concatenate" [pv "labels"]),
        .assign (pv "accuracy") (cc (pA (pA (pv "sklearn") "metrics") "accuracy_score")
          [pv "labels", pv "predictions"]),
        .exprStmt (fc "print"
          [mc (.str "Epoch <> Validation Accuracy <>") "format" [pv "epoch", pv "accuracy"]]),
        .breakStmt]))])]

/-- The node-classification notebook's code cells in order. -/
def nodeClassificationCode : PyStmt := blk
  [ncCell1, ncCell2, ncCell3, ncCell4, ncCell5, ncCell6, ncCell7, ncCell8, ncCell9, ncCell10]

/-- All code of the repository, in notebook order. -/
def repoCode : PyStmt :=
  .seq walkthroughCode (.seq linkPredictionCode nodeClassificationCode)

/-!
Notebook file structure (for the claims about the notebook format).
Cell types are transcribed from the `cell_type` fields of the `.ipynb` JSON;
markdown cells carry no code.
-/

/-- One notebook cell: its `cell_type` string and, for code cells, its code. -/
structure NotebookCell where
  cellType : String
  code : PyStmt
  deriving DecidableEq

/-- A markdown cell. -/
def mdCell : NotebookCell := { cellType := "markdown", code := .skip }

/-- A code cell. -/
def codeCell (s : PyStmt) : NotebookCell := { cellType := "code", code := s }

/-- A notebook file: its `nbformat` version fields and its cell list. -/
structure Notebook where
  nbformat : Nat
  nbformatMinor : Nat
  cells : List NotebookCell
  deriving DecidableEq

/-- The walkthrough notebook: nbformat 4, 22 cells alternating markdown/code. -/
def walkthroughNotebook : Notebook :=
  { nbformat := 4, nbformatMinor := 0,
    cells := [mdCell, codeCell wCell1, mdCell, codeCell wCell2, mdCell, codeCell wCell3,
              mdCell, codeCell wCell4, mdCell, codeCell wCell5, mdCell, codeCell wCell6,
              mdCell, codeCell wCell7, mdCell, codeCell wCell8, mdCell, codeCell wCell9,
              mdCell, codeCell wCell10, mdCell, codeCell wCell11] }

/-- The link-prediction notebook: nbformat 4, 22 markdown and code cells. -/
def linkPredictionNotebook : Notebook :=
  { nbformat := 4, nbformatMinor := 0,
    cells := [mdCell, mdCell, codeCell lpCell1, mdCell, codeCell lpCell2, mdCell,
              codeCell lpCell3, mdCell, codeCell lpCell4, mdCell, codeCell lpCell5, mdCell,
              codeCell lpCell6, mdCell, codeCell lpCell7, mdCell, codeCell lpCell8, mdCell,
              codeCell lpCell9, mdCell, codeCell lpCell10, mdCell] }

/-- The node-classification notebook: nbformat 4, 23 markdown and code cells. -/
def nodeClassificationNotebook : Notebook :=
  { nbformat := 4, nbformatMinor := 0,
    cells := [mdCell, mdCell, codeCell ncCell1, mdCell, codeCell ncCell2, mdCell,
              codeCell ncCell3, mdCell, mdCell, codeCell ncCell4, mdCell, codeCell ncCell5,
              mdCell, codeCell ncCell6, mdCell, codeCell ncCell7, mdCell, codeCell ncCell8,
              mdCell, codeCell ncCell9, mdCell, codeCell ncCell10, mdCell] }

/-- The repository's notebook files. -/
def repoNotebooks : List Notebook :=
  [walkthroughNotebook, linkPredictionNotebook, nodeClassificationNotebook]

/-!
Error-handling analysis.
-/

/-- Whether a statement node is a try/except construct. -/
def isTryNode : PyStmt → Bool
  | .tryExcept _ _ _ _ => true
  | _ => false

/-- Whether a statement node is a raise statement. -/
def isRaiseNode : PyStmt → Bool
  | .raiseStmt _ => true
  | _ => false

/-- The try body of the guard holds only the imports and `installed = True`. -/
def guardBodyOK : PyStmt → Bool
  | .seq a b => guardBodyOK a && guardBodyOK b
  | .skip => true
  | .imprt _ _ => true
  | .assign (.name "installed") (.lit "True") => true
  | _ => false

/-- The handler of the guard holds only `installed = False` and the print of
the caught error. -/
def guardHandlerOK : PyStmt → Bool
  | .seq a b => guardHandlerOK a && guardHandlerOK b
  | .skip => true
  | .assign (.name "installed") (.lit "False") => true
  | .exprStmt (.call (.name "print") (.argsCons (.name _) .argsNil)) => true
  | _ => false

/-- A best-effort import guard: a try/except that catches exactly
`ImportError`, imports and sets `installed = True` in its body, and sets
`installed = False` and prints the error in its handler. -/
def isImportGuard : PyStmt → Bool
  | .tryExcept body "ImportError" _ handler => guardBodyOK body && guardHandlerOK handler
  | _ => false

/-!
Call-graph analysis for the functions and classes defined by the notebooks.
-/

/-- Names bound by import statements of a program. -/
def importedNames (s : PyStmt) : List String :=
  s.stmts.filterMap fun t => match t with
    | .imprt _ a => some a
    | .fromImprt _ n => some n
    | _ => none

/-- Module names imported by a program. -/
def importedModules (s : PyStmt) : List String :=
  s.stmts.filterMap fun t => match t with
    | .imprt m _ => some m
    | .fromImprt m _ => some m
    | _ => none

/-- Python builtins used by the notebooks. -/
def pyBuiltins : List String :=
  ["print", "super", "len", "zip", "enumerate", "list", "next", "iter", "range"]

/-- The functions and classes defined by the notebooks themselves. -/
def repoDefNames : List String := ["to_binary_link_dgl_computing_pack", "SAGE", "Model"]

/-- The plain names occurring in an assignment / loop target. -/
def targetNames (e : PyExpr) : List String :=
  e.subterms.filterMap fun s => match s with
    | .name x => some x
    | _ => none

/-- Names bound by the statements of a body, nested definitions excluded. -/
def boundNames (s : PyStmt) : List String :=
  s.stmtsShallow.flatMap fun t => match t with
    | .assign l _ => targetNames l
    | .augAssign l _ _ => targetNames l
    | .forLoop tg _ _ => targetNames tg
    | .withStmt _ tg _ => targetNames tg
    | .tryExcept _ _ n _ => [n]
    | .funcDef n _ _ => [n]
    | .classDef n _ _ => [n]
    | .imprt _ a => [a]
    | .fromImprt _ n => [n]
    | _ => []

/-- Root names of every call head in a body, nested definitions excluded. -/
def callHeadRoots (s : PyStmt) : List String :=
  s.exprsShallow.filterMap fun e => match e with
    | .call f _ => rootName f
    | _ => none

/-- Whether a body holds a try/except or raise, nested definitions excluded. -/
def hasTryOrRaiseShallow (s : PyStmt) : Bool :=
  s.stmtsShallow.any fun t => isTryNode t || isRaiseNode t

/-- All function and class definitions of a program, with their parameter
lists and bodies, in program order (class methods follow their class). -/
def collectDefs : PyStmt → List (String × PyExpr × PyStmt)
  | .seq a b => collectDefs a ++ collectDefs b
  | .funcDef n p b => (n, p, b) :: collectDefs b
  | .classDef n _ b => (n, .argsNil, b) :: collectDefs b
  | .tryExcept b _ _ h => collectDefs b ++ collectDefs h
  | .forLoop _ _ b => collectDefs b
  | .withStmt _ _ b => collectDefs b
  | .ifStmt _ t e => collectDefs t ++ collectDefs e
  | _ => []

/-- A defined function or class only sequences calls whose heads root in an
external imported package, a Python builtin, its own parameters or locals, or
`self` (whose fields the notebooks fill with external-library objects); it
never calls back into a notebook-defined function, and it contains no error
handling of its own. -/
def defCallsOK (imported : List String) (d : String × PyExpr × PyStmt) : Bool :=
  let allowed := imported ++ pyBuiltins ++ targetNames d.2.1 ++ boundNames d.2.2 ++ ["self"]
  (callHeadRoots d.2.2).all (fun r => allowed.contains r && !(repoDefNames.contains r))
    && !(hasTryOrRaiseShallow d.2.2)

/-!
Mutation analysis for the externally constructed objects the notebooks hold
(item sets, sampling graphs, feature stores, minibatches).
-/

/-- Notebook variables holding item sets (`item_set`, `train_set`,
`valid_set`, `test_set`), sampling graphs (`graph`), feature stores
(`feature_store`, `feature`) and minibatches (`data`). -/
def trackedNames : List String :=
  ["item_set", "graph", "feature_store", "train_set", "valid_set", "test_set",
   "feature", "data"]

/-- Whether an expression's root name is one of the tracked objects. -/
def trackedRoot (e : PyExpr) : Bool :=
  match rootName e with
  | some r => trackedNames.contains r
  | none => false

/-- Whether an assignment target writes through an attribute or subscript of
a tracked object (a plain-name target only rebinds the name). -/
def lhsMutatesTracked (l : PyExpr) : Bool :=
  l.subterms.any fun s => match s with
    | .attr e _ => trackedRoot e
    | .index e _ => trackedRoot e
    | _ => false

/-- Whether one statement writes through a tracked object. -/
def stmtMutatesTracked : PyStmt → Bool
  | .assign l _ => lhsMutatesTracked l
  | .augAssign l _ _ => lhsMutatesTracked l
  | _ => false

/-- Mutating method names (none of which the notebooks invoke on a tracked
object). -/
def mutatorMethods : List String :=
  ["append", "extend", "insert", "pop", "remove", "clear", "update",
   "add_", "copy_", "load_state_dict"]

/-- Every method call whose receiver roots in a tracked object, as a
(root, method) pair. -/
def trackedMethodCalls (s : PyStmt) : List (String × String) :=
  s.exprsDeep.filterMap fun e => match e with
    | .call (.attr obj m) _ =>
      (match rootName obj with
       | some r => if trackedNames.contains r then some (r, m) else none
       | none => none)
    | _ => none

/-- Whether the program anywhere mutates a tracked object: an attribute or
subscript write through it, or a mutating method call on it. -/
def repoMutatesTracked (s : PyStmt) : Bool :=
  s.stmts.any stmtMutatesTracked
    || (trackedMethodCalls s).any (fun p => mutatorMethods.contains p.2)

/-!
Keyword-argument extraction for dataloader and sampler call sites.
-/

/-- Look up a keyword argument by name in an encoded argument list. -/
def kwLookup (xs : PyExpr) (k : String) : Option PyExpr :=
  match xs with
  | .argsCons (.kw k2 v) tl => if k2 = k then some v else kwLookup tl k
  | .argsCons _ tl => kwLookup tl k
  | _ => none

/-- The first positional argument of an encoded argument list, when it is a
plain name. -/
def firstArgName (xs : PyExpr) : Option String :=
  match xs with
  | .argsCons (.name s) _ => some s
  | _ => none

/-- The `num_workers` keyword of every `gb.MultiProcessDataLoader`
construction in a program, in program order. -/
def multiProcessDataLoaderWorkers (s : PyStmt) : List (Option PyExpr) :=
  s.exprsDeep.filterMap fun e => match e with
    | .call (.attr (.name "gb") "MultiProcessDataLoader") xs =>
      some (kwLookup xs "num_workers")
    | _ => none

/-- The (item set, shuffle keyword) of every `gb.ItemSampler` construction in
a program, in program order. -/
def itemSamplerCalls (s : PyStmt) : List (Option String × Option PyExpr) :=
  s.exprsDeep.filterMap fun e => match e with
    | .call (.attr (.name "gb") "ItemSampler") xs =>
      some (firstArgName xs, kwLookup xs "shuffle")
    | _ => none

/-!
Data-pipeline trace analysis.  Each notebook builds its pipeline by
rebinding `datapipe` through stage constructors; each pipeline is consumed
either directly through `iter(datapipe)` or through the data loader name it
is wrapped in.  We extract, in program order, the stage-chaining events and
the pipeline-iteration events, and split the event stream into one trace per
pipeline at each `ItemSampler` construction.
-/

/-- The six pipeline stages of the tutorials. -/
inductive Stage where
  | itemSampler
  | negativeSampler
  | neighborSampler
  | featureFetcher
  | toDGL
  | copyTo
  deriving DecidableEq

/-- A pipeline event: chaining one more stage, or iterating the pipeline to
yield a minibatch. -/
inductive PipeEvent where
  | add (s : Stage)
  | iterate
  deriving DecidableEq

/-- The stage constructed by an expression, if any. -/
def stageOfExpr : PyExpr → Option Stage
  | .call (.attr (.name "gb") "ItemSampler") _ => some .itemSampler
  | .call (.attr _ "sample_uniform_negative") _ => some .negativeSampler
  | .call (.attr _ "sample_neighbor") _ => some .neighborSampler
  | .call (.attr _ "fetch_feature") _ => some .featureFetcher
  | .call (.attr _ "to_dgl") _ => some .toDGL
  | .call (.attr _ "copy_to") _ => some .copyTo
  | _ => none

/-- The names under which a pipeline or its wrapping data loader is held. -/
def pipeNames : List String :=
  ["datapipe", "train_dataloader", "eval_dataloader", "valid_dataloader"]

/-- Call heads that consume an iterable: `iter`, `enumerate`, `tqdm.tqdm`. -/
def isIterHead : PyExpr → Bool
  | .name "iter" => true
  | .name "enumerate" => true
  | .attr (.name "tqdm") "tqdm" => true
  | _ => false

/-- Whether an encoded argument list mentions a pipeline name. -/
def argsMentionPipe (xs : PyExpr) : Bool :=
  xs.subterms.any fun s => match s with
    | .name x => pipeNames.contains x
    | _ => false

/-- Whether an expression iterates a pipeline (or its data loader). -/
def exprIterates (e : PyExpr) : Bool :=
  e.subterms.any fun s => match s with
    | .call f xs => isIterHead f && argsMentionPipe xs
    | _ => false

/-- The pipeline events of one expression: at most one stage-chaining or one
iteration event. -/
def eventsOfExpr (e : PyExpr) : List PipeEvent :=
  match stageOfExpr e with
  | some st => [.add st]
  | none => if exprIterates e then [.iterate] else []

/-- The pipeline events of a program, in program order.  Function and class
bodies contribute nothing: they run only when called, and no pipeline code
sits inside one. -/
def eventsOf : PyStmt → List PipeEvent
  | .seq a b => eventsOf a ++ eventsOf b
  | .assign _ r => eventsOfExpr r
  | .exprStmt e => eventsOfExpr e
  | .forLoop _ it b => (if exprIterates it then [.iterate] else []) ++ eventsOf b
  | .withStmt c _ b => (if exprIterates c then [.iterate] else []) ++ eventsOf b
  | .ifStmt _ t e => eventsOf t ++ eventsOf e
  | .tryExcept b _ _ h => eventsOf b ++ eventsOf h
  | _ => []

/-- Split an event stream into one group per pipeline, starting a new group
at each `ItemSampler` construction; the first group holds any events that
precede the first pipeline. -/
def splitPipes (current : List PipeEvent) : List PipeEvent → List (List PipeEvent)
  | [] => [current.reverse]
  | .add .itemSampler :: rest => current.reverse :: splitPipes [.add .itemSampler] rest
  | e :: rest => splitPipes (e :: current) rest

/-- The pipeline traces of a program: the leading group collects any events
before the first `ItemSampler` and is empty for this repository. -/
def pipelineTraces (s : PyStmt) : List (List PipeEvent) :=
  splitPipes [] (eventsOf s)

/-- The stages chained by a trace, in order. -/
def stagesOf (t : List PipeEvent) : List Stage :=
  t.filterMap fun e => match e with
    | .add s => some s
    | .iterate => none

/-- The mandatory tail of the canonical chain: neighbor sampling, feature
fetching, conversion to DGL format, copy to device. -/
def tailChain : List Stage → Bool
  | [.neighborSampler, .featureFetcher, .toDGL, .copyTo] => true
  | _ => false

/-- The canonical stage order of the claim: item sampling first, then
negative sampling when present, then neighbor sampling, feature fetching,
conversion to the DGL format, and copy to the device. -/
def isCanonicalChain : List Stage → Bool
  | .itemSampler :: .negativeSampler :: rest => tailChain rest
  | .itemSampler :: rest => tailChain rest
  | _ => false

/-- Whether a trace iterates the pipeline only after all its stages are
chained: no stage-chaining event follows an iteration event. -/
def noAddAfterIterate : List PipeEvent → Bool
  | [] => true
  | .iterate :: rest => rest.all fun e => match e with
      | .iterate => true
      | .add _ => false
  | .add _ :: rest => noAddAfterIterate rest

/-- Non-mutating methods the notebooks invoke on tracked objects
(`feature.size(...)`, `data.labels.cpu().numpy()`). -/
def readOnlyMethods : List String := ["size", "cpu", "numpy"]

/-!
Semantic embedding of the import-guard cells.  A guard cell runs its import
statements inside `try`; an ImportError from them transfers control to the
handler, which sets `installed = False` and prints the error; otherwise
`installed = True`; either way the cell ends with
`print("DGL installed!" if installed else "DGL not found!")` and lets no
exception propagate.  An import outcome is `Except.ok ()` when the module
loads, and `Except.error msg` when loading raises ImportError carrying the
message `msg`.
-/

/-- The observable outcome of one run of an import-guard cell. -/
structure GuardRun where
  installed : Bool
  printed : List String
  raised : Option String
  deriving DecidableEq

/-- The guard cell of the walkthrough notebook (code cell 1), which guards
the single statement `import dgl.graphbolt as gb`. -/
def importGuardWalkthrough (importGraphbolt : Except String Unit) : GuardRun :=
  let result :=
    match importGraphbolt with
    | Except.ok _ => (true, ([] : List String))
    | Except.error e => (false, [e])
  { installed := result.1
    printed := result.2 ++ [if result.1 then "DGL installed!" else "DGL not found!"]
    raised := none }

/-- The guard cell of the link-prediction notebook (code cell 1), which
guards `import dgl` followed by `import dgl.graphbolt as gb`; if the
first of the two raises, the second is never attempted. -/
def importGuardLinkPrediction (importDgl importGraphbolt : Except String Unit) :
    GuardRun :=
  let result :=
    match importDgl with
    | Except.error e => (false, [e])
    | Except.ok _ =>
      match importGraphbolt with
      | Except.error e => (false, [e])
      | Except.ok _ => (true, ([] : List String))
  { installed := result.1
    printed := result.2 ++ [if result.1 then "DGL installed!" else "DGL not found!"]
    raised := none }

/-- The guard cell of the node-classification notebook (code cell 1),
textually identical to the link-prediction guard. -/
def importGuardNodeClassification (importDgl importGraphbolt : Except String Unit) :
    GuardRun :=
  let result :=
    match importDgl with
    | Except.error e => (false, [e])
    | Except.ok _ =>
      match importGraphbolt with
      | Except.error e => (false, [e])
      | Except.ok _ => (true, ([] : List String))
  { installed := result.1
    printed := result.2 ++ [if result.1 then "DGL installed!" else "DGL not found!"]
    raised := none }

/-!
Semantic embedding of `to_binary_link_dgl_computing_pack` (link-prediction
notebook, code cell 8).  One-dimensional integer tensors are lists of
integers; `Tensor.float()` casts to rationals, exact on the 0/1 labels
produced here.
-/

/-- `torch.cat` on two 1-d tensors along dim 0. -/
def torch_cat (a b : List Int) : List Int := a ++ b

/-- `torch.ones_like` on a 1-d integer tensor. -/
def torch_ones_like (t : List Int) : List Int := List.replicate t.length 1

/-- `torch.zeros_like` on a 1-d integer tensor. -/
def torch_zeros_like (t : List Int) : List Int := List.replicate t.length 0

/-- `Tensor.float()` on a 1-d integer tensor. -/
def tensor_float (t : List Int) : List ℚ := t.map (Int.cast : Int → ℚ)

/-- The fields of a link-prediction minibatch that
`to_binary_link_dgl_computing_pack` reads: the positive and negative node
pairs, each a (sources, destinations) pair of 1-d tensors. -/
structure DGLMiniBatch where
  positive_node_pairs : List Int × List Int
  negative_node_pairs : List Int × List Int

/-- Functional embedding of `to_binary_link_dgl_computing_pack`: concatenate
positive and negative sources, positive and negative destinations, and build
the float label vector from `ones_like(pos_src)` and `zeros_like(neg_src)`. -/
def to_binary_link_dgl_computing_pack (data : DGLMiniBatch) :
    (List Int × List Int) × List ℚ :=
  let pos_src := data.positive_node_pairs.1
  let pos_dst := data.positive_node_pairs.2
  let neg_src := data.negative_node_pairs.1
  let neg_dst := data.negative_node_pairs.2
  let node_pairs := (torch_cat pos_src neg_src, torch_cat pos_dst neg_dst)
  let pos_label := torch_ones_like pos_src
  let neg_label := torch_zeros_like neg_src
  let labels := torch_cat pos_label neg_label
  (node_pairs, tensor_float labels)

/-!
Semantic embedding of the two `forward` methods.  A layer (a `SAGEConv`
module) is an opaque function from a block and a feature tensor to a feature
tensor; `F.relu` is an opaque function on feature tensors.
-/

/-- The loop of `SAGE.forward`: walk `zip(self.layers, blocks)` with the
running layer index, applying the layer and then relu except when
`layer_idx == len(self.layers) - 1` (`total` is `len(self.layers)`). -/
def sageLoop {Block T : Type} (relu : T → T) (total : Nat) :
    Nat → List ((Block → T → T) × Block) → T → T
  | _, [], hidden => hidden
  | idx, lb :: rest, hidden =>
    let h1 := lb.1 lb.2 hidden
    let h2 := if idx = total - 1 then h1 else relu h1
    sageLoop relu total (idx + 1) rest h2

/-- `SAGE.forward` (link-prediction notebook, code cell 6). -/
def SAGE_forward {Block T : Type} (layers : List (Block → T → T)) (relu : T → T)
    (blocks : List Block) (x : T) : T :=
  sageLoop relu layers.length 0 (layers.zip blocks) x

/-- `Model.forward` (node-classification notebook, code cell 7):
`conv2(mfgs[1], relu(conv1(mfgs[0], x)))`, with the fallible list indexing
made explicit through `Option`. -/
def Model_forward {Block T : Type} (conv1 conv2 : Block → T → T) (relu : T → T)
    (mfgs : List Block) (x : T) : Option T :=
  match mfgs[0]?, mfgs[1]? with
  | some m0, some m1 => some (conv2 m1 (relu (conv1 m0 x)))
  | _, _ => none

/-- The claim's description of a forward pass, written from its words: apply
the i-th layer to the i-th block in order, apply relu after every layer
except the last, and return the last layer's output with no final
activation. -/
def forwardSpecGo {Block T : Type} (relu : T → T) :
    List ((Block → T → T) × Block) → T → T
  | [], hidden => hidden
  | [lb], hidden => lb.1 lb.2 hidden
  | lb :: p :: rest, hidden => forwardSpecGo relu (p :: rest) (relu (lb.1 lb.2 hidden))

/-- The claim's forward pass over the first `min(#layers, #blocks)`
layer/block pairs. -/
def forward_spec {Block T : Type} (layers : List (Block → T → T)) (relu : T → T)
    (blocks : List Block) (x : T) : T :=
  forwardSpecGo relu (layers.zip blocks) x

set_option maxRecDepth 100000

/-- Helper for the forward-pass claim: the loop of `SAGE.forward` agrees with
the claim's forward pass whenever the running index plus the remaining pair
count equals the total layer count. -/
theorem sageLoop_eq_spec {Block T : Type} (relu : T → T) (total : Nat) :
    ∀ (pairs : List ((Block → T → T) × Block)) (idx : Nat) (hidden : T),
      idx + pairs.length = total →
      sageLoop relu total idx pairs hidden = forwardSpecGo relu pairs hidden := by
  intro pairs
  induction pairs with
  | nil => intro idx hidden _; rfl
  | cons lb rest ih =>
    intro idx hidden htot
    cases rest with
    | nil =>
      have hlast : idx = total - 1 := by
        simp only [List.length_cons, List.length_nil] at htot
        omega
      simp [sageLoop, forwardSpecGo, hlast]
    | cons p rs =>
      have hne : ¬ idx = total - 1 := by
        simp only [List.length_cons] at htot
        omega
      have hstep : idx + 1 + (p :: rs).length = total := by
        simp only [List.length_cons] at htot ⊢
        omega
      simp only [sageLoop, forwardSpecGo, if_neg hne]
      exact ih (idx + 1) (relu (lb.1 lb.2 hidden)) hstep

/-- Helper for the forward-pass claim: zipping truncates its second list to
the length of the first. -/
theorem zip_take_length {A B : Type} :
    ∀ (ls : List A) (bs : List B), ls.zip (bs.take ls.length) = ls.zip bs := by
  intro ls
  induction ls with
  | nil => intro bs; simp
  | cons l ls ih =>
    intro bs
    cases bs with
    | nil => simp
    | cons b bs => simp [List.take_succ_cons, ih]

/-- C1: in every notebook's import guard, an ImportError raised by the
guarded loads is caught, `installed` is set to False, the error message is
printed followed by "DGL not found!", and no exception propagates; when they
succeed, `installed` is set to True and "DGL installed!" is printed.  The
first two conjuncts cover the walkthrough guard, the rest cover the
link-prediction and node-classification guards (whose cells also guard the
plain `dgl` import before `dgl.graphbolt`). -/
theorem notebook_import_guards_behavior (e : String) :
    importGuardWalkthrough (Except.error e)
      = { installed := false, printed := [e, "DGL not found!"], raised := none } ∧
    importGuardWalkthrough (Except.ok ())
      = { installed := true, printed := ["DGL installed!"], raised := none } ∧
    importGuardLinkPrediction (Except.ok ()) (Except.error e)
      = { installed := false, printed := [e, "DGL not found!"], raised := none } ∧
    importGuardLinkPrediction (Except.ok ()) (Except.ok ())
      = { installed := true, printed := ["DGL installed!"], raised := none } ∧
    importGuardNodeClassification (Except.ok ()) (Except.error e)
      = { installed := false, printed := [e, "DGL not found!"], raised := none } ∧
    importGuardNodeClassification (Except.ok ()) (Except.ok ())
      = { installed := true, printed := ["DGL installed!"], raised := none } :=
  ⟨rfl, rfl, rfl, rfl, rfl, rfl⟩

/-- C2 counterexample: the repository does not contain exactly one import
guard; its full code holds three try/except constructs (one per notebook). -/
theorem single_import_guard_count_false :
    ¬ (repoCode.stmts.filter isTryNode).length = 1 := by decide

/-- C2 (amended): the repository contains exactly three best-effort import
guards, one in each notebook's first code cell; every try/except in the
repository is such a guard (catching exactly ImportError, printing the error
and setting `installed`), and no raise statement exists anywhere. -/
theorem error_handling_three_import_guards :
    (walkthroughCode.stmts.filter isTryNode).length = 1 ∧
    (linkPredictionCode.stmts.filter isTryNode).length = 1 ∧
    (nodeClassificationCode.stmts.filter isTryNode).length = 1 ∧
    (repoCode.stmts.filter isTryNode).all isImportGuard = true ∧
    (repoCode.stmts.filter isRaiseNode).length = 0 := by decide

/-- C3 counterexample: it is not the case that every pipeline chains all its
stages before being iterated — the walkthrough notebook's pipeline (the
first trace) yields a minibatch after every stage. -/
theorem pipeline_iteration_claim_false :
    ((pipelineTraces repoCode).drop 1).all
      (fun t => isCanonicalChain (stagesOf t) && noAddAfterIterate t) = false := by
  decide

/-- C3 (amended): the repository builds five data pipelines and every one
chains its stages in the fixed order item sampling, negative sampling (when
present), neighbor sampling, feature fetching, conversion to the DGL format,
copy to device; the four pipelines of the training tutorials are iterated
only after all stages are chained, while the walkthrough's demonstration
pipeline is additionally iterated after each stage to print a sample
minibatch (no event precedes the first pipeline, so the leading split group
is empty). -/
theorem pipeline_stage_order_and_iteration :
    (pipelineTraces repoCode).length = 6 ∧
    (pipelineTraces repoCode).take 1 = [[]] ∧
    ((pipelineTraces repoCode).drop 1).all (fun t => isCanonicalChain (stagesOf t)) = true ∧
    ((pipelineTraces repoCode).drop 1).map noAddAfterIterate
      = [false, true, true, true, true] ∧
    ((pipelineTraces repoCode).drop 1).headD []
      = [.add .itemSampler, .iterate, .add .negativeSampler, .iterate,
         .add .neighborSampler, .iterate, .add .featureFetcher, .iterate,
         .add .toDGL, .iterate, .add .copyTo, .iterate, .iterate] := by
  refine ⟨by decide, by decide, by decide, by decide, by decide⟩

/-- C4: the notebooks define exactly three functions/classes (`SAGE` with its
two methods, `to_binary_link_dgl_computing_pack`, and `Model` with its two
methods); every one of them only sequences calls whose heads root in an
externally imported package, a Python builtin, its own parameters or local
bindings, or `self`; none calls back into a notebook-defined function, and
none contains any error handling of its own. -/
theorem defined_functions_only_call_external :
    (collectDefs repoCode).map (fun d => d.1)
      = ["SAGE", "__init__", "forward", "to_binary_link_dgl_computing_pack",
         "Model", "__init__", "forward"] ∧
    (collectDefs repoCode).all (defCallsOK (importedNames repoCode)) = true := by
  refine ⟨by decide, by decide⟩

/-- C5: the notebooks never mutate an item set, sampling graph, feature
store, or minibatch after construction: no statement writes through an
attribute or subscript of such an object, no mutating method is invoked on
one, and the only method calls on them are the read-only
`feature.size(...)` and `data.labels.cpu().numpy()`. -/
theorem tracked_objects_never_mutated :
    repoMutatesTracked repoCode = false ∧
    (trackedMethodCalls repoCode).all (fun p => readOnlyMethods.contains p.2) = true ∧
    (trackedMethodCalls repoCode).length = 4 := by
  refine ⟨by decide, by decide, by decide⟩

/-- C6: every `gb.MultiProcessDataLoader` the notebooks construct (four in
all) is created with `num_workers=0`, and the notebooks import no
concurrency module of their own (no threading, multiprocessing, asyncio or
concurrent.futures). -/
theorem dataloaders_single_process :
    multiProcessDataLoaderWorkers repoCode
      = [some (.lit "0"), some (.lit "0"), some (.lit "0"), some (.lit "0")] ∧
    (["threading", "multiprocessing", "asyncio", "concurrent.futures"].all
      (fun m => !((importedModules repoCode).contains m))) = true := by
  refine ⟨by decide, by decide⟩

/-- C7: every source file of the repository is a notebook in nbformat 4
whose cells are exclusively markdown cells and code cells (the three
notebooks hold 22, 22 and 23 cells). -/
theorem notebooks_nbformat4_markdown_code_cells :
    repoNotebooks.all
      (fun nb => nb.nbformat == 4
        && nb.cells.all (fun c => c.cellType == "markdown" || c.cellType == "code")) = true ∧
    repoNotebooks.map (fun nb => nb.cells.length) = [22, 22, 23] := by
  refine ⟨by decide, by decide⟩

/-- C8: for a minibatch with positive pairs (pos_src, pos_dst) of length p
and negative pairs (neg_src, neg_dst) of length n,
`to_binary_link_dgl_computing_pack` returns
((pos_src ++ neg_src, pos_dst ++ neg_dst), labels) with labels the float
vector of length p + n holding 1 in the first p positions and 0 in the
remaining n, so positives precede negatives and each pair is aligned with
its label. -/
theorem to_binary_pack_labels_aligned (data : DGLMiniBatch) :
    to_binary_link_dgl_computing_pack data
      = ((data.positive_node_pairs.1 ++ data.negative_node_pairs.1,
          data.positive_node_pairs.2 ++ data.negative_node_pairs.2),
         List.replicate data.positive_node_pairs.1.length (1 : ℚ) ++
           List.replicate data.negative_node_pairs.1.length (0 : ℚ)) ∧
    (to_binary_link_dgl_computing_pack data).2.length
      = data.positive_node_pairs.1.length + data.negative_node_pairs.1.length := by
  constructor
  · unfold to_binary_link_dgl_computing_pack torch_cat torch_ones_like
      torch_zeros_like tensor_float
    simp only [List.map_append, List.map_replicate, Int.cast_one, Int.cast_zero]
  · unfold to_binary_link_dgl_computing_pack torch_cat torch_ones_like
      torch_zeros_like tensor_float
    simp only [List.length_map, List.length_append, List.length_replicate]

/-- C9: in both model definitions, forward applies the i-th layer to the
i-th block in order and relu after every layer except the last, returning
the last layer's output with no final activation, and with k layers only the
first k blocks are consumed; `Model.forward` is the k = 2 instance of the
same scheme. -/
theorem forward_layerwise_relu_structure {Block T : Type}
    (layers : List (Block → T → T)) (relu : T → T) (blocks : List Block) (x : T)
    (conv1 conv2 : Block → T → T) (mfgs : List Block)
    (hlen : layers.length ≤ blocks.length) (hm : 2 ≤ mfgs.length) :
    SAGE_forward layers relu blocks x = forward_spec layers relu blocks x ∧
    SAGE_forward layers relu blocks x
      = SAGE_forward layers relu (blocks.take layers.length) x ∧
    Model_forward conv1 conv2 relu mfgs x
      = some (forward_spec [conv1, conv2] relu mfgs x) := by
  refine ⟨?_, ?_, ?_⟩
  · unfold SAGE_forward forward_spec
    refine sageLoop_eq_spec relu layers.length (layers.zip blocks) 0 x ?_
    simp only [List.length_zip, Nat.zero_add]
    omega
  · unfold SAGE_forward
    rw [zip_take_length]
  · obtain ⟨m0, m1, rest, rfl⟩ : ∃ m0 m1 rest, mfgs = m0 :: m1 :: rest := by
      match mfgs, hm with
      | m0 :: m1 :: rest, _ => exact ⟨m0, m1, rest, rfl⟩
    simp [Model_forward, forward_spec, forwardSpecGo]

/-- Witness for C9 at two concrete layers, two blocks and two MFGs over
natural numbers. -/
theorem forward_layerwise_relu_structure_witness :
    SAGE_forward [fun (b t : Nat) => b + t, fun b t => b * t] (fun t => t + 1) [2, 3] 5
      = forward_spec [fun (b t : Nat) => b + t, fun b t => b * t] (fun t => t + 1) [2, 3] 5 ∧
    SAGE_forward [fun (b t : Nat) => b + t, fun b t => b * t] (fun t => t + 1) [2, 3] 5
      = SAGE_forward [fun (b t : Nat) => b + t, fun b t => b * t] (fun t => t + 1)
          (([2, 3] : List Nat).take ([fun (b t : Nat) => b + t, fun b t => b * t].length)) 5 ∧
    Model_forward (fun (b t : Nat) => b + t) (fun b t => b * t) (fun t => t + 1) [7, 9] 5
      = some (forward_spec [fun (b t : Nat) => b + t, fun b t => b * t] (fun t => t + 1) [7, 9] 5) :=
  forward_layerwise_relu_structure [fun b t => b + t, fun b t => b * t] (fun t => t + 1)
    [2, 3] 5 (fun b t => b + t) (fun b t => b * t) [7, 9] (by decide) (by decide)

/-- C10: in the training-tutorial notebooks, every ItemSampler over a
training set has shuffle=True and every ItemSampler over a validation or
test set has shuffle=False: the four constructions are exactly train (True),
test (False), train (True), valid (False). -/
theorem item_sampler_shuffle_policy :
    itemSamplerCalls (.seq linkPredictionCode nodeClassificationCode)
      = [(some "train_set", some (.lit "True")), (some "test_set", some (.lit "False")),
         (some "train_set", some (.lit "True")), (some "valid_set", some (.lit "False"))] ∧
    (itemSamplerCalls (.seq linkPredictionCode nodeClassificationCode)).all
      (fun p =>
        ((!(p.1 == some "train_set")) || (p.2 == some (PyExpr.lit "True")))
          && ((!(p.1 == some "valid_set" || p.1 == some "test_set"))
              || (p.2 == some (PyExpr.lit "False")))) = true := by
  refine ⟨by decide, by decide⟩
